import Mathlib

/-!
Verification of the FlowViber conversation-orchestration core against its
specification.  The definitions below are a shallow embedding of the
TypeScript source: `src/lib/prompting-system.ts` (requirement tracker),
`src/app/api/ai-chat/route.ts` (provider gateway), and
`src/components/ai-conversation-builder.tsx` (orchestrator, artifact
generation and debounced auto-save).
-/

namespace FlowViber

/-! ## Basic string utilities (models of JS string operations) -/

/-- Model of JS `hay.includes(needle)`: `needle` occurs as a contiguous
substring of `hay`. -/
def seqStartsWith : List Char → List Char → Bool
  | _, [] => true
  | [], _ :: _ => false
  | c :: cs, d :: ds => c = d && seqStartsWith cs ds

/-- Scan for an occurrence of `needle` anywhere in `hay`. -/
def seqContainsSeq (hay needle : List Char) : Bool :=
  match hay with
  | [] => seqStartsWith [] needle
  | _ :: rest => seqStartsWith hay needle || seqContainsSeq rest needle

/-- Model of JS `hay.includes(needle)` on strings. -/
def strIncludes (hay needle : String) : Bool :=
  seqContainsSeq hay.toList needle.toList

/-- Model of JS `s.toLowerCase()` (ASCII range; the keyword lists involved
are all ASCII). -/
def strLower (s : String) : String := String.mk (s.toList.map Char.toLower)

/-! ## Requirement tracker (`src/lib/prompting-system.ts`) -/

/-- The fixed `category` enum of a requirement. -/
inductive Category where
  | scope | triggers | resources | inputs | destinations | errors
deriving DecidableEq

/-- The TS string value of a category (TS stores categories as strings). -/
def Category.name : Category → String
  | .scope => "scope"
  | .triggers => "triggers"
  | .resources => "resources"
  | .inputs => "inputs"
  | .destinations => "destinations"
  | .errors => "errors"

/-- Requirement priority. -/
inductive Priority where
  | high | medium | low
deriving DecidableEq

/-- `WorkflowRequirement` from `prompting-system.ts`. -/
structure WorkflowRequirement where
  category : Category
  question : String
  answered : Bool
  answer : Option String
  priority : Priority
deriving DecidableEq

/-- Conversation phase. -/
inductive Phase where
  | discovery | validation | generation | complete
deriving DecidableEq

/-- `ConversationState` from `prompting-system.ts`.  `completeness` is the
JS number produced by `calculateCompleteness` (always a natural number in
0..100 for non-empty requirement lists). -/
structure ConversationState where
  phase : Phase
  requirements : List WorkflowRequirement
  completeness : Nat
  currentFocus : Option String
deriving DecidableEq

/-- Keyword table of `checkIfRequirementAnswered`. -/
def categoryKeywords : Category → List String
  | .scope => ["automate", "process", "task", "workflow", "want to", "need to", "daily", "weekly", "schedule"]
  | .triggers => ["when", "trigger", "start", "schedule", "webhook", "email arrives", "at", "daily", "weekly", "time"]
  | .resources => ["gmail", "slack", "sheets", "api", "service", "connect", "integration", "twitter", "openai", "email"]
  | .inputs => ["data", "information", "file", "email", "form", "input", "content", "message"]
  | .destinations => ["send", "save", "output", "notify", "store", "forward", "email", "to", "@"]
  | .errors => ["error", "fail", "wrong", "retry", "fallback", "notification", "notify", "email"]

/-- `checkIfRequirementAnswered(requirement, message)`: `message` is the
already-lowercased user message. -/
def checkIfRequirementAnswered (requirement : WorkflowRequirement) (message : String) : Bool :=
  (categoryKeywords requirement.category).any (fun keyword => strIncludes message keyword)

/-- Summary-section markers of `checkIfRequirementInResponse`. -/
def summaryIndicators : List String :=
  ["workflow summary", "key components", "trigger:", "processing:", "output:", "error handling:"]

/-- `checkIfRequirementInResponse(requirement, response)`: the requirement
argument is unused in the source as well. -/
def checkIfRequirementInResponse (_requirement : WorkflowRequirement) (response : String) : Bool :=
  summaryIndicators.any (fun indicator => strIncludes response indicator)

/-- `analyzeAndUpdateRequirements(requirements, userMessage, aiResponse)`:
already-answered requirements are returned unchanged; unanswered ones are
re-evaluated against the lowercased texts. -/
def analyzeAndUpdateRequirements (requirements : List WorkflowRequirement)
    (userMessage aiResponse : String) : List WorkflowRequirement :=
  let message := strLower userMessage
  let response := strLower aiResponse
  requirements.map fun req =>
    if req.answered then req
    else
      let isAnswered := checkIfRequirementAnswered req message || checkIfRequirementInResponse req response
      { req with answered := isAnswered, answer := if isAnswered then some userMessage else none }

/-- Model of JS `Math.round(num/den)` for naturals (`Math.round` rounds
half-integers up, i.e. `⌊x + 1/2⌋`). -/
def jsRound (num den : Nat) : Nat := (2 * num + den) / (2 * den)

/-- `calculateCompleteness(requirements)`.  The boost condition
`coreAnswered >= coreRequirements.length * 0.8` is expressed exactly as
`5 * coreAnswered ≥ 4 * core.length`, which agrees with the JS float
comparison at every list size reachable in the program. -/
def calculateCompleteness (requirements : List WorkflowRequirement) : Nat :=
  let answered := (requirements.filter (fun r => r.answered)).length
  let baseCompleteness := jsRound (answered * 100) requirements.length
  let coreRequirements := requirements.filter (fun r => r.priority = Priority.high)
  let coreAnswered := (coreRequirements.filter (fun r => r.answered)).length
  if 5 * coreAnswered ≥ 4 * coreRequirements.length then
    max baseCompleteness 80
  else
    baseCompleteness

/-- `getCurrentFocus(requirements)`. -/
def getCurrentFocus (requirements : List WorkflowRequirement) : String :=
  let unanswered := requirements.filter (fun r => !r.answered)
  if unanswered.length = 0 then "Ready for generation"
  else
    let highPriority := unanswered.filter (fun r => r.priority = Priority.high)
    match highPriority with
    | r :: _ => r.category.name
    | [] =>
      match unanswered with
      | r :: _ => r.category.name
      | [] => "Ready for generation"

/-- `updateConversationState(currentState, userMessage, aiResponse)`. -/
def updateConversationState (currentState : ConversationState)
    (userMessage aiResponse : String) : ConversationState :=
  let updatedRequirements := analyzeAndUpdateRequirements currentState.requirements userMessage aiResponse
  let completeness := calculateCompleteness updatedRequirements
  let phase :=
    if completeness ≥ 80 ∧ currentState.phase = Phase.discovery then Phase.validation
    else if completeness ≥ 90 ∧ currentState.phase = Phase.validation then Phase.generation
    else currentState.phase
  { currentState with
      requirements := updatedRequirements
      completeness := completeness
      phase := phase
      currentFocus := some (getCurrentFocus updatedRequirements) }

/-- `shouldGenerateWorkflow(state)`. -/
def shouldGenerateWorkflow (state : ConversationState) : Bool :=
  state.completeness ≥ 80 && state.phase = Phase.generation

/-- Iterated update calls (one conversation session, no reset). -/
def applyTurns (s : ConversationState) (turns : List (String × String)) : ConversationState :=
  turns.foldl (fun st turn => updateConversationState st turn.1 turn.2) s

/-- Rank of a phase in the documented order
`discovery < validation < generation < complete`. -/
def phaseRank : Phase → Nat
  | .discovery => 0
  | .validation => 1
  | .generation => 2
  | .complete => 3

/-! ## Structured artifact values (model of parsed JSON) -/

/-- Parsed structured values, the image of `JSON.parse`. -/
inductive Json where
  | null
  | bool (b : Bool)
  | num (n : Int)
  | str (s : String)
  | arr (items : List Json)
  | obj (fields : List (String × Json))

/-- Property lookup on an object value; `none` models JS `undefined`
(non-objects have no own properties of interest here). -/
def lookupField : List (String × Json) → String → Option Json
  | [], _ => none
  | (k, v) :: rest, key => if k = key then some v else lookupField rest key

/-- `value[key]` access. -/
def Json.getField : Json → String → Option Json
  | .obj fields, key => lookupField fields key
  | _, _ => none

/-- JS truthiness of a parsed value (`undefined` is handled by
`fieldTruthy`). -/
def jsTruthy : Json → Bool
  | .null => false
  | .bool b => b
  | .num n => n ≠ 0
  | .str s => s ≠ ""
  | .arr _ => true
  | .obj _ => true

/-- Truthiness of `value[key]` (missing property = `undefined` = falsy). -/
def fieldTruthy (j : Json) (key : String) : Bool :=
  match j.getField key with
  | some v => jsTruthy v
  | none => false

/-! ## Model of `JSON.parse`

A recursive-descent parser for the JSON subset the generator produces
(objects, arrays, strings with the common escapes, integers, booleans,
null).  Fuel-based so that every definition reduces in the kernel. -/

/-- JSON whitespace. -/
def isJsonWs (c : Char) : Bool := c = ' ' || c = '\t' || c = '\n' || c = '\r'

def skipWs (l : List Char) : List Char := l.dropWhile isJsonWs

/-- Translate a JSON string escape character. -/
def unescape (c : Char) : Option Char :=
  if c = '"' then some '"'
  else if c = '\\' then some '\\'
  else if c = '/' then some '/'
  else if c = 'n' then some '\n'
  else if c = 't' then some '\t'
  else if c = 'r' then some '\r'
  else if c = 'b' then some (Char.ofNat 8)
  else if c = 'f' then some (Char.ofNat 12)
  else none

/-- Parse the body of a JSON string (after the opening quote); returns the
string and the input after the closing quote. -/
def parseStrBody : List Char → List Char → Option (String × List Char)
  | [], _ => none
  | '"' :: rest, acc => some (String.mk acc.reverse, rest)
  | '\\' :: rest, acc =>
    match rest with
    | [] => none
    | e :: rest2 =>
      match unescape e with
      | some d => parseStrBody rest2 (d :: acc)
      | none => none
  | c :: rest, acc => parseStrBody rest (c :: acc)

/-- Parse a nonempty digit run. -/
def parseDigits : List Char → Nat → Bool → Option (Nat × List Char)
  | c :: rest, acc, _ =>
    if c.isDigit then parseDigits rest (acc * 10 + (c.toNat - 48)) true
    else if acc = 0 ∧ !(c.isDigit) then none
    else some (acc, c :: rest)
  | [], acc, seen => if seen then some (acc, []) else none

/-- Parse an integer JSON number (the generated artifacts use integers). -/
def parseNum : List Char → Option (Json × List Char)
  | '-' :: rest =>
    match parseDigits rest 0 false with
    | some (n, r) => some (Json.num (-(n : Int)), r)
    | none => none
  | l =>
    match parseDigits l 0 false with
    | some (n, r) => some (Json.num (n : Int), r)
    | none => none

/-- Parsing mode: a single value, the items of an array, or the fields of
an object. -/
inductive PMode where
  | value
  | items (acc : List Json)
  | fields (acc : List (String × Json))

/-- Fuel-driven recursive-descent JSON parser. -/
def parseJ : Nat → PMode → List Char → Option (Json × List Char)
  | 0, _, _ => none
  | Nat.succ fuel, PMode.value, input =>
    match skipWs input with
    | 'n' :: 'u' :: 'l' :: 'l' :: rest => some (Json.null, rest)
    | 't' :: 'r' :: 'u' :: 'e' :: rest => some (Json.bool true, rest)
    | 'f' :: 'a' :: 'l' :: 's' :: 'e' :: rest => some (Json.bool false, rest)
    | '"' :: rest =>
      (match parseStrBody rest [] with
       | some (s, r) => some (Json.str s, r)
       | none => none)
    | '[' :: rest =>
      (match skipWs rest with
       | ']' :: r2 => some (Json.arr [], r2)
       | _ => parseJ fuel (PMode.items []) rest)
    | '{' :: rest =>
      (match skipWs rest with
       | '}' :: r2 => some (Json.obj [], r2)
       | _ => parseJ fuel (PMode.fields []) rest)
    | rest => parseNum rest
  | Nat.succ fuel, PMode.items acc, input =>
    match parseJ fuel PMode.value input with
    | none => none
    | some (v, rest) =>
      match skipWs rest with
      | ',' :: r2 => parseJ fuel (PMode.items (acc ++ [v])) r2
      | ']' :: r2 => some (Json.arr (acc ++ [v]), r2)
      | _ => none
  | Nat.succ fuel, PMode.fields acc, input =>
    match skipWs input with
    | '"' :: rest =>
      (match parseStrBody rest [] with
       | none => none
       | some (k, r1) =>
         match skipWs r1 with
         | ':' :: r2 =>
           (match parseJ fuel PMode.value r2 with
            | none => none
            | some (v, r3) =>
              match skipWs r3 with
              | ',' :: r4 => parseJ fuel (PMode.fields (acc ++ [(k, v)])) r4
              | '}' :: r4 => some (Json.obj (acc ++ [(k, v)]), r4)
              | _ => none)
         | _ => none)
    | _ => none

/-- Model of `JSON.parse` (`none` models a thrown `SyntaxError`). -/
def jsonParse (s : String) : Option Json :=
  match parseJ (s.length * 4 + 16) PMode.value s.toList with
  | some (v, rest) => if (skipWs rest).isEmpty then some v else none
  | none => none

/-! ## Output cleaning (`handleGenerateWorkflow`,
`src/components/ai-conversation-builder.tsx`) -/

/-- JS `\s` whitespace class (the ASCII members). -/
def isJsWs (c : Char) : Bool :=
  c = ' ' || c = '\t' || c = '\n' || c = '\r' || c = Char.ofNat 11 || c = Char.ofNat 12

/-- Model of JS `s.trim()`. -/
def strTrim (s : String) : List Char :=
  ((s.toList.dropWhile isJsWs).reverse.dropWhile isJsWs).reverse

/-- One global pass of `replace(/\x60\x60\x60(?:json)?\s*/g, "")`: at each
match (three backticks, optionally the word json, then greedy whitespace)
the matched run is dropped and scanning resumes after it.  Fueled by the
input length so the definition reduces in the kernel. -/
def replFence1 : Nat → List Char → List Char
  | 0, l => l
  | Nat.succ fuel, l =>
    match l with
    | [] => []
    | '`' :: '`' :: '`' :: rest =>
      let rest2 :=
        match rest with
        | 'j' :: 's' :: 'o' :: 'n' :: r => r
        | r => r
      replFence1 fuel (rest2.dropWhile isJsWs)
    | c :: rest => c :: replFence1 fuel rest

/-- One global pass of `replace(/\s*\x60\x60\x60/g, "")`: a match at a
position is a whitespace run followed by three backticks (backticks are not
whitespace, so the greedy run is determined). -/
def replFence2 : Nat → List Char → List Char
  | 0, l => l
  | Nat.succ fuel, l =>
    match l with
    | [] => []
    | c :: rest =>
      match l.dropWhile isJsWs with
      | '`' :: '`' :: '`' :: r => replFence2 fuel r
      | _ => c :: replFence2 fuel rest

/-- Both fence-stripping replacements, as in the component. -/
def stripFences (l : List Char) : List Char :=
  replFence2 (l.length) (replFence1 (l.length) l)

/-- Index of the first occurrence of `c` (JS `indexOf`, `none` for -1). -/
def idxOfChar : List Char → Char → Option Nat
  | [], _ => none
  | d :: rest, c =>
    if d = c then some 0
    else
      match idxOfChar rest c with
      | some i => some (i + 1)
      | none => none

/-- Index of the last occurrence of `c` (JS `lastIndexOf`). -/
def lastIdxOfChar (l : List Char) (c : Char) : Option Nat :=
  match idxOfChar l.reverse c with
  | some i => some (l.length - 1 - i)
  | none => none

/-- The failure cases of the generation pipeline
(`handleGenerateWorkflow`). -/
inductive GenOutcome where
  /-- Extraction, parsing and structural validation all succeeded; carries
  the parsed workflow and its node list. -/
  | accepted (workflow : Json) (nodes : List Json)
  /-- No `{`..`}` bounding pair and the text looks like a prose apology. -/
  | errNoJsonProse
  /-- No `{`..`}` bounding pair, malformed output. -/
  | errNoJsonMalformed
  /-- `JSON.parse` threw. -/
  | errParse
  /-- Parsed value has no `nodes` array. -/
  | errMissingNodesArray
  /-- `nodes` is the empty list ("Generated workflow has no nodes"). -/
  | errNoNodes
  /-- `count` nodes are missing a truthy `name` or `type`. -/
  | errInvalidNodes (count : Nat)

/-- Whether an outcome is the accepting one. -/
def GenOutcome.isAccepted : GenOutcome → Bool
  | .accepted _ _ => true
  | _ => false

/-- The prose check applied when no JSON bounding pair is found:
`workflowJson.toLowerCase()` contains "sorry", "can't generate" or
"unable to". -/
def looksLikeProse (l : List Char) : Bool :=
  let lowered := String.mk (l.map Char.toLower)
  strIncludes lowered "sorry" || strIncludes lowered "can't generate" ||
    strIncludes lowered "unable to"

/-- Cleaning and extraction: trim, strip markdown fences, then slice from
the first `\x7b` to the last `\x7d` inclusive; fails when no valid bounding
pair exists. -/
def cleanAndExtract (content : String) : Sum GenOutcome String :=
  let workflowJson := stripFences (strTrim content)
  match idxOfChar workflowJson '{', lastIdxOfChar workflowJson '}' with
  | some jsonStart, some jsonEnd =>
    if jsonEnd ≤ jsonStart then
      Sum.inl (if looksLikeProse workflowJson then GenOutcome.errNoJsonProse else GenOutcome.errNoJsonMalformed)
    else
      Sum.inr (String.mk ((workflowJson.drop jsonStart).take (jsonEnd + 1 - jsonStart)))
  | _, _ =>
    Sum.inl (if looksLikeProse workflowJson then GenOutcome.errNoJsonProse else GenOutcome.errNoJsonMalformed)

/-- A node is invalid when `!node.name || !node.type` (JS truthiness). -/
def nodeInvalid (node : Json) : Bool :=
  !(fieldTruthy node "name") || !(fieldTruthy node "type")

/-- Structural validation of the parsed value, in the source's order:
nodes array present, non-empty, and every node with truthy name and type
(all violating nodes are collected and counted). -/
def validateParsed (parsed : Json) : GenOutcome :=
  match parsed.getField "nodes" with
  | some (Json.arr nodes) =>
    if nodes.length = 0 then GenOutcome.errNoNodes
    else
      let invalidNodes := nodes.filter nodeInvalid
      if invalidNodes.length > 0 then GenOutcome.errInvalidNodes invalidNodes.length
      else GenOutcome.accepted parsed nodes
  | _ => GenOutcome.errMissingNodesArray

/-- The full generation pipeline on the raw model output. -/
def runGenerate (content : String) : GenOutcome :=
  match cleanAndExtract content with
  | Sum.inl e => e
  | Sum.inr workflowJson =>
    match jsonParse workflowJson with
    | none => GenOutcome.errParse
    | some parsed => validateParsed parsed

/-- Observable effects of one `handleGenerateWorkflow` run. -/
structure GenEffects where
  /-- Outcome of cleaning, parsing and validation. -/
  outcome : GenOutcome
  /-- Workflow JSON written to storage (`updateWorkflowJsonAndStatus`). -/
  persistedJson : Option Json
  /-- Status written to storage alongside the JSON. -/
  persistedStatus : Option String
  /-- Cleaned JSON handed to `onWorkflowGenerated` (the right panel). -/
  sentToPanel : Option String
  /-- An error-flagged assistant message was appended. -/
  errorMessageAppended : Bool
  /-- Final value of `showGenerateButton` (re-armed on failure). -/
  showGenerateButton : Bool
  /-- Final value of `workflowGenerated`. -/
  workflowGenerated : Bool

/-- The effect bundle of the `catch` branch: nothing persisted, an
error-flagged message appended, and the generate button re-shown. -/
def failEffects (e : GenOutcome) : GenEffects :=
  { outcome := e
    persistedJson := none
    persistedStatus := none
    sentToPanel := none
    errorMessageAppended := true
    showGenerateButton := true
    workflowGenerated := false }

/-- `handleGenerateWorkflow(content, currentWorkflowId)` as a function from
the generation response content to its observable effects. -/
def handleGenerateWorkflow (content : String) (currentWorkflowId : Option String) : GenEffects :=
  match cleanAndExtract content with
  | Sum.inl e => failEffects e
  | Sum.inr workflowJson =>
    match jsonParse workflowJson with
    | none => failEffects GenOutcome.errParse
    | some parsed =>
      match validateParsed parsed with
      | GenOutcome.accepted workflow nodes =>
        { outcome := GenOutcome.accepted workflow nodes
          persistedJson := if currentWorkflowId.isSome then some workflow else none
          persistedStatus := if currentWorkflowId.isSome then some "generated" else none
          sentToPanel := some workflowJson
          errorMessageAppended := false
          showGenerateButton := false
          workflowGenerated := true }
      | e => failEffects e

/-! ## Provider gateway (`src/app/api/ai-chat/route.ts`, conversational
path) -/

/-- The parsed provider error body (`error.cause` in the route). -/
structure ErrorCause where
  /-- The provider's error `type` field. -/
  errType : Option String
  /-- The provider's error `code` field. -/
  errCode : Option String
deriving DecidableEq

/-- Outcome of one provider transport call. -/
inductive CallOutcome where
  /-- The provider returned generated text. -/
  | ok (content : String)
  /-- The call threw; carries the parsed cause (if the error body parsed)
  and the error message string. -/
  | err (cause : Option ErrorCause) (message : String)
deriving DecidableEq

/-- The response object the route returns on HTTP 200 (fields that are
`undefined` in JS are `none`). -/
structure AIResponse where
  /-- Generated text. -/
  content : String
  /-- Which provider produced it. -/
  provider : String
  /-- Set to `true` on a successful fallback. -/
  fallback : Option Bool := none
  /-- Human-readable reason attached to a fallback. -/
  fallbackReason : Option String := none
  /-- Error code classifying the primary failure. -/
  errorCode : Option String := none
  /-- Provider that failed. -/
  originalProvider : Option String := none
  /-- Provider that answered instead. -/
  fallbackProvider : Option String := none
  /-- Whether the client should show a fallback notification. -/
  showNotification : Option Bool := none
  /-- Set when the primary was silently skipped (already suppressed). -/
  silentFallback : Option Bool := none
deriving DecidableEq

/-- Result of the route's provider-selection logic: a 200 response or an
HTTP error with its `errorCode`, together with the updated
`failedProviders` set. -/
inductive PostOutcome where
  /-- HTTP 200 with the response object. -/
  | success (response : AIResponse) (failedProviders : List String)
  /-- HTTP error response with status and error code. -/
  | httpError (status : Nat) (errorCode : String) (failedProviders : List String)
deriving DecidableEq

/-- Classification of an OpenAI failure, from the route's `catch` block:
(fallbackReason, errorCode, shouldFallback, provider added to
`failedProviders`). -/
def classifyOpenAIError (cause : Option ErrorCause) : String × String × Bool × Bool :=
  match cause with
  | some c =>
    if c.errCode = some "context_length_exceeded" then
      ("OpenAI context length exceeded (conversation too long)", "CONTEXT_LENGTH_EXCEEDED", true, false)
    else if c.errType = some "insufficient_quota" then
      ("OpenAI API credits exhausted", "CREDITS_LOW", true, true)
    else if c.errType = some "rate_limit_error" then
      ("OpenAI API rate limit exceeded", "RATE_LIMIT", true, true)
    else
      ("OpenAI API error", "OPENAI_UNKNOWN", false, false)
  | none => ("OpenAI API error", "OPENAI_UNKNOWN", false, false)

/-- The `isTemporaryError` test of the route. -/
def isTemporaryError (message : String) (shouldFallback : Bool) : Bool :=
  strIncludes message "529" || strIncludes message "overloaded" ||
    strIncludes message "rate_limit" || strIncludes message "503" ||
    strIncludes message "timeout" || shouldFallback

/-- One conversational `POST` through the provider-selection logic.
`openaiKey`/`claudeKey` say which credentials the key store returned;
the call outcomes say how each provider transport would respond. -/
def postChat (failedProviders : List String) (openaiKey claudeKey : Bool)
    (openaiCall claudeCall : CallOutcome) : PostOutcome :=
  if openaiKey ∧ ¬ failedProviders.contains "openai" then
    match openaiCall with
    | CallOutcome.ok content => PostOutcome.success { content, provider := "openai" } failedProviders
    | CallOutcome.err cause message =>
      let (fallbackReason, errorCode, shouldFallback, addFailed) := classifyOpenAIError cause
      let failedProviders2 := if addFailed then failedProviders.insert "openai" else failedProviders
      if isTemporaryError message shouldFallback ∧ claudeKey then
        match claudeCall with
        | CallOutcome.ok content2 =>
          PostOutcome.success
            { content := content2
              provider := "claude"
              fallback := some true
              fallbackReason := some fallbackReason
              errorCode := some errorCode
              originalProvider := some "openai"
              fallbackProvider := some "claude"
              showNotification := some (¬ failedProviders2.contains "openai") }
            failedProviders2
        | CallOutcome.err _ _ => PostOutcome.httpError 503 "ALL_PROVIDERS_FAILED" failedProviders2
      else
        PostOutcome.httpError 503 errorCode failedProviders2
  else if claudeKey then
    match claudeCall with
    | CallOutcome.ok content =>
      PostOutcome.success
        { content, provider := "claude"
          silentFallback := if failedProviders.contains "openai" then some true else none }
        failedProviders
    | CallOutcome.err _ _ => PostOutcome.httpError 503 "CLAUDE_FAILED" failedProviders
  else
    PostOutcome.httpError 400 "NO_API_KEYS" failedProviders

/-- The client's notification condition (`handleSendMessage`):
`response.fallback && response.errorCode && response.showNotification !==
false && !response.silentFallback`. -/
def clientNotifies (r : AIResponse) : Bool :=
  (r.fallback = some true) &&
    (match r.errorCode with
     | some code => code ≠ ""
     | none => false) &&
    (r.showNotification ≠ some false) &&
    (r.silentFallback ≠ some true)

/-! ## Debounced auto-save (`AIConversationBuilder`, auto-save effect)

The component is single-threaded and event-driven; we model it as a
discrete-event machine over timestamped events.  Each message-log mutation
re-renders: the effect cleanup cancels the pending save timer, and the
effect body re-schedules a save 3000 ms later unless a guard skips it.  A
session switch (`loadWorkflowData`) marks a 500 ms transition window and
also cancels the pending timer. -/

/-- A chat message as hashed and persisted by the auto-save. -/
structure ChatMsg where
  /-- Unique id. -/
  id : String
  /-- Message text. -/
  content : String
  /-- "user" or "ai". -/
  sender : String
deriving DecidableEq

/-- Model of `JSON.stringify(messages.map(m => m.id + m.content +
m.sender))`: stringify of a list of strings is injective, so the list
itself serves as the hash. -/
def msgsHash (messages : List ChatMsg) : List String :=
  messages.map (fun m => m.id ++ m.content ++ m.sender)

/-- A scheduled auto-save: its fire time and the values the `setTimeout`
callback closed over. -/
structure PendingSave where
  /-- Absolute time the timer fires (schedule time + 3000 ms). -/
  fireAt : Nat
  /-- `messages` at schedule time. -/
  msgs : List ChatMsg
  /-- `messagesHash` at schedule time. -/
  hash : List String
  /-- `currentWorkflowId` at schedule time. -/
  wid : String
deriving DecidableEq

/-- A call to `workflowStorage.updateWorkflowChatHistory`. -/
structure SaveWrite where
  /-- When it was issued. -/
  time : Nat
  /-- Target workflow. -/
  wid : String
  /-- Persisted message log. -/
  history : List ChatMsg
deriving DecidableEq

/-- Component state relevant to the auto-save behaviour. -/
structure BuilderState where
  /-- `messages` state (mirrored into `workflowStateRef` by the first
  effect before the auto-save effect body runs). -/
  messages : List ChatMsg
  /-- `currentWorkflowId` state. -/
  currentWorkflowId : Option String
  /-- `isTransitioningRef.current`. -/
  transitioning : Bool
  /-- When the pending 500 ms transition timer flips it back. -/
  transitionEndsAt : Option Nat
  /-- `autoSaveTimeoutRef`: the single pending debounced save. -/
  pending : Option PendingSave
  /-- `lastSavedHashRef.current`. -/
  lastSavedHash : List String
  /-- Log of issued persisted writes. -/
  writes : List SaveWrite
deriving DecidableEq

/-- The `setTimeout` callback of the auto-save effect: re-checks the
session identity and transition flag against the latest state, compares
the closure hash, then issues the write and records the saved hash. -/
def fireAutoSave (st : BuilderState) (p : PendingSave) : BuilderState :=
  if st.currentWorkflowId ≠ some p.wid ∨ st.transitioning then st
  else if msgsHash p.msgs ≠ p.hash then st
  else
    { st with
        writes := st.writes ++ [{ time := p.fireAt, wid := p.wid, history := p.msgs }]
        lastSavedHash := p.hash }

/-- Let the 500 ms transition timer expire if due at time `t`. -/
def expireTransition (st : BuilderState) (t : Nat) : BuilderState :=
  match st.transitionEndsAt with
  | some te => if te ≤ t then { st with transitioning := false, transitionEndsAt := none } else st
  | none => st

/-- Fire the pending auto-save if due at time `t`. -/
def firePendingSave (st : BuilderState) (t : Nat) : BuilderState :=
  match st.pending with
  | some p => if p.fireAt ≤ t then { fireAutoSave st p with pending := none } else st
  | none => st

/-- Run every timer due by time `t`, in chronological order (there are at
most two: the transition-end timer and the debounced save). -/
def advanceTo (st : BuilderState) (t : Nat) : BuilderState :=
  match st.transitionEndsAt, st.pending with
  | some te, some p =>
    if te ≤ p.fireAt then firePendingSave (expireTransition st t) t
    else expireTransition (firePendingSave st t) t
  | _, _ => firePendingSave (expireTransition st t) t

/-- A message-log mutation at time `t`: render with the new `messages`,
run the auto-save effect cleanup (cancel the pending timer), then the
effect body with its guards, scheduling a save at `t + 3000`. -/
def applyMutation (st : BuilderState) (t : Nat) (newMsgs : List ChatMsg) : BuilderState :=
  let st := advanceTo st t
  let st := { st with messages := newMsgs, pending := none }
  if st.transitioning then st
  else
    match st.currentWorkflowId with
    | none => st
    | some wid =>
      if st.messages.length ≤ 1 then st
      else if st.currentWorkflowId ≠ some wid then st
      else
        let messagesHash := msgsHash st.messages
        if messagesHash = st.lastSavedHash then st
        else
          { st with pending := some { fireAt := t + 3000, msgs := st.messages, hash := messagesHash, wid := wid } }

/-- A session switch at time `t` (`loadWorkflowData`): transition flag on
for 500 ms, messages and saved-hash baseline replaced, and the re-render's
effect cleanup cancels any pending save (the effect body then skips
because the transition is in progress). -/
def applySwitch (st : BuilderState) (t : Nat) (wid : Option String) (loaded : List ChatMsg) : BuilderState :=
  let st := advanceTo st t
  { st with
      transitioning := true
      transitionEndsAt := some (t + 500)
      currentWorkflowId := wid
      messages := loaded
      lastSavedHash := msgsHash loaded
      pending := none }

/-- Timestamped component events. -/
inductive BuilderEvent where
  /-- `setMessages` with a new log. -/
  | mutate (t : Nat) (msgs : List ChatMsg)
  /-- Switch to another stored workflow session. -/
  | switchTo (t : Nat) (wid : Option String) (msgs : List ChatMsg)

/-- Process one event. -/
def stepBuilder (st : BuilderState) : BuilderEvent → BuilderState
  | BuilderEvent.mutate t msgs => applyMutation st t msgs
  | BuilderEvent.switchTo t wid msgs => applySwitch st t wid msgs

/-- Process a list of events, then let all remaining timers run (advance
to a quiet time `tEnd`). -/
def runBuilder (st : BuilderState) (events : List BuilderEvent) (tEnd : Nat) : BuilderState :=
  advanceTo (events.foldl stepBuilder st) tEnd

/-! ## Spec-side definitions (stated from the specification's words, for
comparison with the source-derived definitions above) -/

/-- The completeness formula exactly as the specification words it:
`round(100 × answeredCount / totalCount)`, floored at 80 when at least 80%
of the high-priority requirements are answered (`round` is Mathlib's
round-half-up on rationals, which is `Math.round` for non-negative
values). -/
def claimCompleteness (reqs : List WorkflowRequirement) : ℤ :=
  let answeredCount := (reqs.filter (fun r => r.answered)).length
  let totalCount := reqs.length
  let base : ℤ := round ((100 * answeredCount : ℚ) / totalCount)
  let high := reqs.filter (fun r => r.priority = Priority.high)
  let highAnswered := (high.filter (fun r => r.answered)).length
  if ((80 : ℚ) / 100) * high.length ≤ highAnswered then max base 80 else base

/-- The focus rule as the (amended) claim words it: the category of the
first unanswered high-priority requirement, else the category of the first
unanswered requirement, else the ready sentinel. -/
def specFocus (reqs : List WorkflowRequirement) : String :=
  match reqs.find? (fun r => !r.answered && r.priority = Priority.high) with
  | some r => r.category.name
  | none =>
    match reqs.find? (fun r => !r.answered) with
    | some r => r.category.name
    | none => "Ready for generation"

/-! ## Concrete inputs used by the witnesses and counterexamples -/

/-- The concrete generation output of the artifact-acceptance test
property. -/
def c1Input : String :=
  "Sure! ```json\n\x7b\"nodes\":[\x7b\"name\":\"A\",\"type\":\"t\"\x7d],\"connections\":\x7b\x7d\x7d\n```"

/-- The single node of the parsed concrete artifact. -/
def c1Node : Json := Json.obj [("name", Json.str "A"), ("type", Json.str "t")]

/-- The parsed concrete artifact. -/
def c1Parsed : Json :=
  Json.obj [("nodes", Json.arr [c1Node]), ("connections", Json.obj [])]

/-- A parsed value whose `nodes` list is empty. -/
def c1EmptyNodes : Json :=
  Json.obj [("nodes", Json.arr []), ("connections", Json.obj [])]

/-- A node missing its `type` field. -/
def c1BadNode : Json := Json.obj [("name", Json.str "A")]

/-- A parsed value with exactly one node missing `type`. -/
def c1OneBad : Json := Json.obj [("nodes", Json.arr [c1BadNode])]

/-- A requirement constructor for concrete examples. -/
def mkReq (c : Category) (p : Priority) (answered : Bool) : WorkflowRequirement :=
  { category := c, question := "q", answered := answered, answer := none, priority := p }

/-- The specification's concrete completeness example: 3 high-priority
requirements all answered plus 3 low-priority requirements all
unanswered. -/
def c3Example : List WorkflowRequirement :=
  [mkReq Category.scope Priority.high true,
   mkReq Category.triggers Priority.high true,
   mkReq Category.resources Priority.high true,
   mkReq Category.inputs Priority.low false,
   mkReq Category.destinations Priority.low false,
   mkReq Category.errors Priority.low false]

/-- A one-requirement discovery state used to exercise phase
transitions concretely. -/
def cDiscoveryState : ConversationState :=
  { phase := Phase.discovery
    requirements := [mkReq Category.scope Priority.high false]
    completeness := 0
    currentFocus := none }

/-- A fully-answered requirement list. -/
def cAllAnswered : List WorkflowRequirement :=
  [mkReq Category.scope Priority.high true]

/-- A state whose requirements are all already answered. -/
def cAllAnsweredState : ConversationState :=
  { phase := Phase.discovery
    requirements := cAllAnswered
    completeness := 0
    currentFocus := none }

/-- The parsed error body of an OpenAI 429 rate-limit response. -/
def rateLimitCause : ErrorCause := { errType := some "rate_limit_error", errCode := none }

/-- The primary provider failing with a rate-limit classification. -/
def rateLimitFailure : CallOutcome :=
  CallOutcome.err (some rateLimitCause) "OpenAI API error: 429 - rate_limit_error"

/-- First conversational call of the fallback scenario: no suppressed
providers, both keys configured, OpenAI rate-limited, Claude succeeding. -/
def c2FirstCall : PostOutcome :=
  postChat [] true true rateLimitFailure (CallOutcome.ok "hello")

/-- Second conversational call of the scenario, within the suppression
window (the failed-provider set produced by the first call). -/
def c2SecondCall : PostOutcome :=
  postChat ["openai"] true true rateLimitFailure (CallOutcome.ok "hello again")

/-- A concrete chat message. -/
def mkMsg (i content : String) : ChatMsg := { id := i, content := content, sender := "user" }

/-- A ready builder state bound to workflow "w": idle, no transition, with
an initial two-message log already saved. -/
def c8Base : List ChatMsg := [mkMsg "0" "hi", mkMsg "1" "welcome"]

/-- Ready builder state for the debounce scenario. -/
def c8Start : BuilderState :=
  { messages := c8Base
    currentWorkflowId := some "w"
    transitioning := false
    transitionEndsAt := none
    pending := none
    lastSavedHash := msgsHash c8Base
    writes := [] }

/-- Message logs of the three-mutation burst. -/
def c8M1 : List ChatMsg := c8Base ++ [mkMsg "2" "a"]

/-- Second mutation's log. -/
def c8M2 : List ChatMsg := c8M1 ++ [mkMsg "3" "b"]

/-- Third mutation's log. -/
def c8M3 : List ChatMsg := c8M2 ++ [mkMsg "4" "c"]

/-- The response object the route builds on the first rate-limit fallback
(note `showNotification = false`: the provider was added to
`failedProviders` before the flag was computed). -/
def c2FirstResponse : AIResponse :=
  { content := "hello"
    provider := "claude"
    fallback := some true
    fallbackReason := some "OpenAI API rate limit exceeded"
    errorCode := some "RATE_LIMIT"
    originalProvider := some "openai"
    fallbackProvider := some "claude"
    showNotification := some false
    silentFallback := none }

/-- The response object of the second call inside the suppression
window. -/
def c2SecondResponse : AIResponse :=
  { content := "hello again"
    provider := "claude"
    silentFallback := some true }

/-- A validation-phase state used to exercise the no-return-to-discovery
property concretely. -/
def cValidationState : ConversationState :=
  { phase := Phase.validation
    requirements := [mkReq Category.scope Priority.high true]
    completeness := 100
    currentFocus := none }

/-- One-step evolution of a requirement across an update: the priority is
unchanged and the answered flag only ever flips false→true. -/
def ReqStep (a b : WorkflowRequirement) : Prop :=
  a.priority = b.priority ∧ (a.answered = true → b.answered = true)

/-! ## Helper lemmas -/

/-- `jsRound` is `Math.round` of the exact quotient. -/
theorem jsRound_cast (n d : Nat) (hd : 0 < d) :
    (jsRound n d : ℤ) = round ((n : ℚ) / d) := by
  have hd' : (0 : ℚ) < d := by exact_mod_cast hd
  rw [round_eq]
  have h1 : (n : ℚ) / d + 1 / 2 = ((2 * n + d : ℕ) : ℚ) / ((2 * d : ℕ) : ℚ) := by
    push_cast
    field_simp
    ring
  rw [h1, Rat.floor_natCast_div_natCast]
  unfold jsRound
  exact (Int.ofNat_tdiv _ _).symm

/-- The 80%-of-high-priority condition, rationally and in naturals. -/
theorem boost_cond_iff (a c : Nat) :
    (((80 : ℚ) / 100) * c ≤ a) ↔ (4 * c ≤ 5 * a) := by
  rw [div_mul_eq_mul_div, div_le_iff₀ (by norm_num : (0 : ℚ) < 100)]
  constructor
  · intro h
    have h1 : (80 * c : ℚ) ≤ 100 * a := by linarith
    have h2 : (80 * c : ℕ) ≤ 100 * a := by exact_mod_cast h1
    omega
  · intro h
    have h2 : (80 * c : ℕ) ≤ 100 * a := by omega
    have h1 : (80 * c : ℚ) ≤ 100 * a := by exact_mod_cast h2
    linarith

/-- The source's completeness equals the specification's formula on every
non-empty requirement list. -/
theorem calculateCompleteness_eq_claim (reqs : List WorkflowRequirement)
    (h : 0 < reqs.length) :
    (calculateCompleteness reqs : ℤ) = claimCompleteness reqs := by
  unfold calculateCompleteness claimCompleteness
  have hb : (jsRound ((reqs.filter (fun r => r.answered)).length * 100) reqs.length : ℤ)
      = round ((100 * ((reqs.filter (fun r => r.answered)).length : ℚ)) / reqs.length) := by
    rw [jsRound_cast _ _ h]
    congr 1
    push_cast
    ring
  by_cases hc : 5 * (((reqs.filter (fun r => decide (r.priority = Priority.high))).filter
      (fun r => r.answered)).length) ≥
      4 * (reqs.filter (fun r => decide (r.priority = Priority.high))).length
  · rw [if_pos hc, if_pos (by exact_mod_cast (boost_cond_iff _ _).mpr hc)]
    push_cast [Nat.cast_max] at hb ⊢
    rw [hb]
  · rw [if_neg hc, if_neg (by
      intro hcon
      exact hc (by exact_mod_cast (boost_cond_iff _ _).mp hcon))]
    exact hb

/-- The requirements an update returns. -/
theorem update_requirements (s : ConversationState) (m r : String) :
    (updateConversationState s m r).requirements
      = analyzeAndUpdateRequirements s.requirements m r := rfl

/-- The completeness an update returns. -/
theorem update_completeness (s : ConversationState) (m r : String) :
    (updateConversationState s m r).completeness
      = calculateCompleteness (analyzeAndUpdateRequirements s.requirements m r) := rfl

/-- The phase an update returns. -/
theorem update_phase (s : ConversationState) (m r : String) :
    (updateConversationState s m r).phase
      = (if calculateCompleteness (analyzeAndUpdateRequirements s.requirements m r) ≥ 80
            ∧ s.phase = Phase.discovery then Phase.validation
         else if calculateCompleteness (analyzeAndUpdateRequirements s.requirements m r) ≥ 90
            ∧ s.phase = Phase.validation then Phase.generation
         else s.phase) := rfl

/-- A single update either keeps the phase, or advances
discovery→validation at completeness ≥ 80, or validation→generation at
completeness ≥ 90. -/
theorem update_phase_cases (s : ConversationState) (m r : String) :
    (updateConversationState s m r).phase = s.phase
      ∨ (s.phase = Phase.discovery ∧ (updateConversationState s m r).phase = Phase.validation
          ∧ 80 ≤ (updateConversationState s m r).completeness)
      ∨ (s.phase = Phase.validation ∧ (updateConversationState s m r).phase = Phase.generation
          ∧ 90 ≤ (updateConversationState s m r).completeness) := by
  rw [update_phase, update_completeness]
  split_ifs with h1 h2
  · exact Or.inr (Or.inl ⟨h1.2, rfl, h1.1⟩)
  · exact Or.inr (Or.inr ⟨h2.2, rfl, h2.1⟩)
  · exact Or.inl rfl

/-- The phase rank never decreases across one update. -/
theorem phaseRank_step (s : ConversationState) (m r : String) :
    phaseRank s.phase ≤ phaseRank (updateConversationState s m r).phase := by
  rcases update_phase_cases s m r with h | ⟨h1, h2, _⟩ | ⟨h1, h2, _⟩
  · rw [h]
  · rw [h1, h2]; decide
  · rw [h1, h2]; decide

/-- The phase rank never decreases across any sequence of updates. -/
theorem phaseRank_turns (ts : List (String × String)) :
    ∀ s : ConversationState, phaseRank s.phase ≤ phaseRank (applyTurns s ts).phase := by
  induction ts with
  | nil => intro s; exact le_refl _
  | cons turn rest ih =>
    intro s
    exact le_trans (phaseRank_step s turn.1 turn.2) (ih _)

/-- Re-analysing already-analysed requirements with the same texts changes
nothing: answered requirements are skipped, and the checks are functions
of the (unchanged) category and the texts. -/
theorem analyze_idem (reqs : List WorkflowRequirement) (m r : String) :
    analyzeAndUpdateRequirements (analyzeAndUpdateRequirements reqs m r) m r
      = analyzeAndUpdateRequirements reqs m r := by
  unfold analyzeAndUpdateRequirements
  simp only [List.map_map]
  refine List.map_congr_left ?_
  intro req _
  simp only [Function.comp_apply]
  by_cases ha : req.answered
  · simp [ha]
  · by_cases hb : (checkIfRequirementAnswered req (strLower m)
        || checkIfRequirementInResponse req (strLower r)) = true
    · simp [ha, hb]
    · simp only [Bool.not_eq_true] at hb
      simp only [ha, Bool.false_eq_true, if_false, hb]
      rw [show (checkIfRequirementAnswered
            ⟨req.category, req.question, false, none, req.priority⟩ (strLower m)
          || checkIfRequirementInResponse
            ⟨req.category, req.question, false, none, req.priority⟩ (strLower r))
          = (checkIfRequirementAnswered req (strLower m)
          || checkIfRequirementInResponse req (strLower r)) from rfl, hb]
      simp

/-- The head of a filtered list is the first element satisfying the
predicate. -/
theorem filter_head?_eq_find? {α : Type _} (p : α → Bool) (l : List α) :
    (l.filter p).head? = l.find? p := by
  induction l with
  | nil => rfl
  | cons a l ih =>
    by_cases h : p a
    · simp [List.filter_cons, h, List.find?_cons_of_pos]
    · simp [List.filter_cons, h, List.find?_cons_of_neg, ih]

/-- Searching a filtered list searches the conjunction. -/
theorem find?_filter {α : Type _} (p q : α → Bool) (l : List α) :
    (l.filter q).find? p = l.find? (fun a => q a && p a) := by
  induction l with
  | nil => rfl
  | cons a l ih =>
    by_cases hq : q a
    · by_cases hp : p a
      · simp [List.filter_cons, hq, List.find?_cons_of_pos, hp]
      · simp [List.filter_cons, hq, List.find?_cons_of_neg, hp, ih]
    · simp [List.filter_cons, hq, List.find?_cons_of_neg, ih]

/-- The source's focus computation agrees with the first-unanswered rule
(with the source's "Ready for generation" sentinel). -/
theorem getCurrentFocus_eq_spec (reqs : List WorkflowRequirement) :
    getCurrentFocus reqs = specFocus reqs := by
  unfold getCurrentFocus specFocus
  by_cases h0 : (reqs.filter (fun q => !q.answered)).length = 0
  · have he : reqs.filter (fun q => !q.answered) = [] := List.length_eq_zero.mp h0
    have f2 : reqs.find? (fun q => !q.answered) = none := by
      rw [← filter_head?_eq_find?, he]; rfl
    have f1 : reqs.find? (fun q => (!q.answered) && decide (q.priority = Priority.high)) = none := by
      rw [← find?_filter, ← filter_head?_eq_find?, he]; rfl
    simp [h0, f1, f2]
  · rcases hhigh : (reqs.filter (fun q => !q.answered)).filter
        (fun q => decide (q.priority = Priority.high)) with _ | ⟨r, rest⟩
    · have f1 : reqs.find? (fun q => (!q.answered) && decide (q.priority = Priority.high)) = none := by
        rw [← find?_filter, ← filter_head?_eq_find?, hhigh]; rfl
      rcases hun : reqs.filter (fun q => !q.answered) with _ | ⟨u, urest⟩
      · exact absurd (by rw [hun]; rfl) h0
      · have f2 : reqs.find? (fun q => !q.answered) = some u := by
          rw [← filter_head?_eq_find?, hun]; rfl
        rw [hun] at hhigh
        simp [h0, hhigh, hun, f1, f2]
    · have f1 : reqs.find? (fun q => (!q.answered) && decide (q.priority = Priority.high)) = some r := by
        rw [← find?_filter, ← filter_head?_eq_find?, hhigh]; rfl
      simp [h0, hhigh, f1]

/-! ## Claim theorems -/

/-- C3: for every non-empty requirement list the tracker's completeness
equals round(100 × answered / total), boosted to at least 80 when at least
80% of the high-priority requirements are answered; in particular, for 3
answered high-priority plus 3 unanswered low-priority requirements it is
80, not the raw ratio 50. -/
theorem C3_completeness_formula :
    (∀ reqs : List WorkflowRequirement, 0 < reqs.length →
        (calculateCompleteness reqs : ℤ) = claimCompleteness reqs)
      ∧ calculateCompleteness c3Example = 80
      ∧ jsRound ((c3Example.filter (fun q => q.answered)).length * 100) c3Example.length = 50 :=
  ⟨calculateCompleteness_eq_claim, by decide, by decide⟩

/-- C3 witness: the formula equivalence instantiated at the concrete
3-high-answered/3-low-unanswered list. -/
theorem C3_completeness_formula_witness :
    0 < c3Example.length
      ∧ (calculateCompleteness c3Example : ℤ) = claimCompleteness c3Example :=
  ⟨by decide, C3_completeness_formula.1 c3Example (by decide)⟩

/-- C4: a single update changes the phase only discovery→validation at
completeness ≥ 80 or validation→generation at completeness ≥ 90; over any
sequence of updates the phase is non-decreasing in the order discovery <
validation < generation < complete, so once past discovery no sequence of
updates returns to it. -/
theorem C4_phase_threshold_gated_one_directional :
    ∀ (s : ConversationState) (m r : String) (ts : List (String × String)),
      ((updateConversationState s m r).phase = s.phase
        ∨ (s.phase = Phase.discovery ∧ (updateConversationState s m r).phase = Phase.validation
            ∧ 80 ≤ (updateConversationState s m r).completeness)
        ∨ (s.phase = Phase.validation ∧ (updateConversationState s m r).phase = Phase.generation
            ∧ 90 ≤ (updateConversationState s m r).completeness))
      ∧ phaseRank s.phase ≤ phaseRank (applyTurns s ts).phase
      ∧ (s.phase ≠ Phase.discovery → (applyTurns s ts).phase ≠ Phase.discovery) := by
  intro s m r ts
  refine ⟨update_phase_cases s m r, phaseRank_turns ts s, ?_⟩
  intro hne hdisc
  have h := phaseRank_turns ts s
  rw [hdisc] at h
  cases hp : s.phase
  · exact hne hp
  all_goals rw [hp] at h
  all_goals exact absurd h (by decide)

/-- C4 witness: a validation-phase state never returns to discovery over a
concrete update sequence. -/
theorem C4_phase_threshold_gated_one_directional_witness :
    cValidationState.phase ≠ Phase.discovery
      ∧ (applyTurns cValidationState [("a", "b")]).phase ≠ Phase.discovery :=
  ⟨by decide,
    (C4_phase_threshold_gated_one_directional cValidationState "a" "b" [("a", "b")]).2.2 (by decide)⟩

/-- C6: running the tracker update a second time with the same message and
reply changes neither the completeness nor any requirement's answered
flag. -/
theorem C6_update_idempotent :
    ∀ (s : ConversationState) (m r : String),
      (updateConversationState (updateConversationState s m r) m r).completeness
        = (updateConversationState s m r).completeness
      ∧ (updateConversationState (updateConversationState s m r) m r).requirements.map
          (fun q => q.answered)
        = (updateConversationState s m r).requirements.map (fun q => q.answered) := by
  intro s m r
  constructor
  · simp only [update_completeness, update_requirements, analyze_idem]
  · simp only [update_requirements, analyze_idem]

/-- C9 counterexample: after an update on a fully-answered requirement
list, every requirement is answered yet `currentFocus` is not the claimed
sentinel "ready" — the source's sentinel is "Ready for generation". -/
theorem C9_counterexample :
    ((updateConversationState cAllAnsweredState "x" "y").requirements.all
        (fun q => q.answered)) = true
      ∧ (updateConversationState cAllAnsweredState "x" "y").currentFocus ≠ some "ready"
      ∧ (updateConversationState cAllAnsweredState "x" "y").currentFocus
          = some "Ready for generation" :=
  ⟨by decide, by decide, by decide⟩

/-- C9 (amended): after every update, `currentFocus` is the category of
the first unanswered high-priority requirement, else the category of the
first unanswered requirement, else the sentinel "Ready for generation"
(not "ready"). -/
theorem C9_currentFocus_rule :
    ∀ (s : ConversationState) (m r : String),
      (updateConversationState s m r).currentFocus
        = some (specFocus (updateConversationState s m r).requirements) := by
  intro s m r
  show some (getCurrentFocus (analyzeAndUpdateRequirements s.requirements m r)) = _
  rw [update_requirements, getCurrentFocus_eq_spec]

/-- C10 (implicit): the phase advances at most one step per update — from
discovery a single update reaches at most validation even at completeness
100, `shouldGenerateWorkflow` is still false after one update from
discovery, and when it first becomes true after two updates the first
update's completeness was ≥ 80 and the second's ≥ 90. -/
theorem C10_single_update_single_step :
    ∀ (s : ConversationState) (m1 r1 m2 r2 : String),
      (s.phase = Phase.discovery →
        ((updateConversationState s m1 r1).phase = Phase.discovery
          ∨ (updateConversationState s m1 r1).phase = Phase.validation))
      ∧ phaseRank (updateConversationState s m1 r1).phase ≤ phaseRank s.phase + 1
      ∧ (s.phase = Phase.discovery →
          shouldGenerateWorkflow (updateConversationState s m1 r1) = false)
      ∧ (s.phase = Phase.discovery →
          shouldGenerateWorkflow
              (updateConversationState (updateConversationState s m1 r1) m2 r2) = true →
          80 ≤ (updateConversationState s m1 r1).completeness
            ∧ 90 ≤ (updateConversationState (updateConversationState s m1 r1) m2 r2).completeness) := by
  intro s m1 r1 m2 r2
  have hone : s.phase = Phase.discovery →
      ((updateConversationState s m1 r1).phase = Phase.discovery
        ∨ (updateConversationState s m1 r1).phase = Phase.validation) := by
    intro hdisc
    rcases update_phase_cases s m1 r1 with h | ⟨_, h2, _⟩ | ⟨h1, _, _⟩
    · rw [h, hdisc]; exact Or.inl rfl
    · exact Or.inr h2
    · rw [hdisc] at h1; cases h1
  refine ⟨hone, ?_, ?_, ?_⟩
  · rcases update_phase_cases s m1 r1 with h | ⟨h1, h2, _⟩ | ⟨h1, h2, _⟩
    · rw [h]; omega
    · rw [h1, h2]; decide
    · rw [h1, h2]; decide
  · intro hdisc
    rcases hone hdisc with h | h <;> simp [shouldGenerateWorkflow, h]
  · intro hdisc hgen
    have hphase2 : (updateConversationState (updateConversationState s m1 r1) m2 r2).phase
        = Phase.generation := by
      simp [shouldGenerateWorkflow, Bool.and_eq_true] at hgen
      exact hgen.2
    rcases update_phase_cases (updateConversationState s m1 r1) m2 r2 with
      h | ⟨h1, h2, _⟩ | ⟨h1, _, h3⟩
    · rw [hphase2] at h
      rcases hone hdisc with hd | hd <;> rw [hd] at h <;> cases h
    · rw [hphase2] at h2; cases h2
    · refine ⟨?_, h3⟩
      rcases update_phase_cases s m1 r1 with g | ⟨_, _, g3⟩ | ⟨g1, _, _⟩
      · rw [h1, hdisc] at g; cases g
      · exact g3
      · rw [hdisc] at g1; cases g1

/-- Analysing requirements relates input and output pointwise by
`ReqStep`. -/
theorem analyze_step (reqs : List WorkflowRequirement) (m r : String) :
    List.Forall₂ ReqStep reqs (analyzeAndUpdateRequirements reqs m r) := by
  unfold analyzeAndUpdateRequirements
  induction reqs with
  | nil => constructor
  | cons req rest ih =>
    simp only [List.map_cons]
    refine List.Forall₂.cons ?_ ih
    by_cases ha : req.answered
    · simp only [ha, if_true]
      exact ⟨rfl, fun h => h⟩
    · simp only [ha, Bool.false_eq_true, if_false]
      exact ⟨rfl, fun h => absurd h (by simp [ha])⟩

/-- The answered count is monotone along `ReqStep`. -/
theorem answered_count_mono {l₁ l₂ : List WorkflowRequirement}
    (h : List.Forall₂ ReqStep l₁ l₂) :
    (l₁.filter (fun q => q.answered)).length ≤ (l₂.filter (fun q => q.answered)).length := by
  induction h with
  | nil => exact le_refl _
  | @cons a b l₁ l₂ hab hrest ih =>
    by_cases ha : a.answered
    · have hb := hab.2 ha
      simp only [List.filter_cons, ha, hb, if_true, List.length_cons]
      omega
    · by_cases hb : b.answered <;>
        simp only [List.filter_cons, ha, hb, Bool.false_eq_true, if_false, if_true,
          List.length_cons] <;> omega

/-- Filtering by (preserved) priority preserves the pointwise relation. -/
theorem filter_high_step {l₁ l₂ : List WorkflowRequirement}
    (h : List.Forall₂ ReqStep l₁ l₂) :
    List.Forall₂ ReqStep (l₁.filter (fun q => decide (q.priority = Priority.high)))
      (l₂.filter (fun q => decide (q.priority = Priority.high))) := by
  induction h with
  | nil => constructor
  | @cons a b l₁ l₂ hab hrest ih =>
    by_cases hp : a.priority = Priority.high
    · have hbp : b.priority = Priority.high := hab.1 ▸ hp
      simp only [List.filter_cons, hp, hbp, decide_eq_true_eq, if_true]
      exact List.Forall₂.cons hab ih
    · have hbp : ¬ b.priority = Priority.high := fun hc => hp (hab.1 ▸ hc)
      simp only [List.filter_cons, hp, hbp, decide_eq_true_eq, if_false]
      exact ih

/-- Rounding is monotone in the numerator. -/
theorem jsRound_mono {a b d : Nat} (h : a ≤ b) : jsRound a d ≤ jsRound b d :=
  Nat.div_le_div_right (by omega)

/-- Completeness is monotone along the pointwise relation. -/
theorem calc_mono {l₁ l₂ : List WorkflowRequirement}
    (h : List.Forall₂ ReqStep l₁ l₂) :
    calculateCompleteness l₁ ≤ calculateCompleteness l₂ := by
  unfold calculateCompleteness
  have hlen : l₁.length = l₂.length := h.length_eq
  have ha := answered_count_mono h
  have hh := filter_high_step h
  have hclen := hh.length_eq
  have hca := answered_count_mono hh
  have hbase : jsRound ((l₁.filter (fun q => q.answered)).length * 100) l₁.length
      ≤ jsRound ((l₂.filter (fun q => q.answered)).length * 100) l₂.length := by
    rw [hlen]
    exact jsRound_mono (by omega)
  by_cases h1 : 5 * ((l₁.filter (fun q => decide (q.priority = Priority.high))).filter
      (fun q => q.answered)).length
      ≥ 4 * (l₁.filter (fun q => decide (q.priority = Priority.high))).length
  · have h2 : 5 * ((l₂.filter (fun q => decide (q.priority = Priority.high))).filter
        (fun q => q.answered)).length
        ≥ 4 * (l₂.filter (fun q => decide (q.priority = Priority.high))).length := by omega
    rw [if_pos h1, if_pos h2]
    exact max_le_max hbase (le_refl 80)
  · rw [if_neg h1]
    by_cases h2 : 5 * ((l₂.filter (fun q => decide (q.priority = Priority.high))).filter
        (fun q => q.answered)).length
        ≥ 4 * (l₂.filter (fun q => decide (q.priority = Priority.high))).length
    · rw [if_pos h2]
      exact le_trans hbase (le_max_left _ _)
    · rw [if_neg h2]
      exact hbase

/-- A single update cannot lower the completeness of a state whose
completeness is the one computed from its requirements. -/
theorem update_step_completeness (s : ConversationState) (m r : String)
    (hinv : s.completeness = calculateCompleteness s.requirements) :
    s.completeness ≤ (updateConversationState s m r).completeness := by
  rw [hinv, update_completeness]
  exact calc_mono (analyze_step s.requirements m r)

/-- Completeness can only grow over any sequence of updates. -/
theorem applyTurns_completeness_mono (ts : List (String × String)) :
    ∀ s : ConversationState,
      s.completeness = calculateCompleteness s.requirements →
      s.completeness ≤ (applyTurns s ts).completeness := by
  induction ts with
  | nil => intro s _; exact le_refl _
  | cons turn rest ih =>
    intro s hinv
    exact le_trans (update_step_completeness s turn.1 turn.2 hinv)
      (ih (updateConversationState s turn.1 turn.2)
        (by rw [update_completeness, update_requirements]))

/-- C5: within one session, completeness never decreases from one update's
result to any later update's result — answered flags only ever flip
false→true and the requirement list never shrinks. -/
theorem C5_completeness_monotone :
    ∀ (s : ConversationState) (m r : String) (ts : List (String × String)),
      (updateConversationState s m r).completeness
        ≤ (applyTurns (updateConversationState s m r) ts).completeness := by
  intro s m r ts
  exact applyTurns_completeness_mono ts _ (by rw [update_completeness, update_requirements])

/-- The orchestrator's outcome field reflects the pipeline outcome. -/
theorem handle_outcome_eq (content : String) (wid : Option String) :
    (handleGenerateWorkflow content wid).outcome = runGenerate content := by
  rcases hce : cleanAndExtract content with e | txt
  · simp [handleGenerateWorkflow, runGenerate, hce, failEffects]
  · rcases hp : jsonParse txt with _ | parsed
    · simp [handleGenerateWorkflow, runGenerate, hce, hp, failEffects]
    · cases hv : validateParsed parsed
      all_goals simp [handleGenerateWorkflow, runGenerate, hce, hp, hv, failEffects]

/-- Whenever the pipeline does not accept, the run is exactly the
failure-effect bundle. -/
theorem handle_fail_eq (content : String) (wid : Option String)
    (h : (runGenerate content).isAccepted = false) :
    handleGenerateWorkflow content wid = failEffects (runGenerate content) := by
  rcases hce : cleanAndExtract content with e | txt
  · simp [handleGenerateWorkflow, runGenerate, hce]
  · rcases hp : jsonParse txt with _ | parsed
    · simp [handleGenerateWorkflow, runGenerate, hce, hp]
    · cases hv : validateParsed parsed
      case accepted wf ns =>
        rw [runGenerate, hce] at h
        simp only [hp, hv, GenOutcome.isAccepted] at h
        exact absurd h (by decide)
      all_goals simp [handleGenerateWorkflow, runGenerate, hce, hp, hv]

/-- C1: the concrete fenced output is cleaned, parsed and accepted as an
artifact with exactly one node named "A"; a parsed object with an empty
`nodes` list fails with the no-nodes error; a parsed object whose single
node is missing `type` fails reporting exactly 1 invalid node; and no
failing run hands an artifact to the caller. -/
theorem C1_artifact_acceptance :
    runGenerate c1Input = GenOutcome.accepted c1Parsed [c1Node]
      ∧ c1Node.getField "name" = some (Json.str "A")
      ∧ (∀ j : Json, j.getField "nodes" = some (Json.arr []) →
          validateParsed j = GenOutcome.errNoNodes)
      ∧ (∀ j n : Json, j.getField "nodes" = some (Json.arr [n]) → n.getField "type" = none →
          validateParsed j = GenOutcome.errInvalidNodes 1)
      ∧ (∀ (content : String) (wid : Option String),
          (runGenerate content).isAccepted = false →
          (handleGenerateWorkflow content wid).sentToPanel = none) := by
  refine ⟨rfl, rfl, ?_, ?_, ?_⟩
  · intro j h
    simp [validateParsed, h]
  · intro j n h ht
    simp [validateParsed, h, nodeInvalid, fieldTruthy, ht]
  · intro content wid h
    rw [handle_fail_eq content wid h]
    rfl

/-- C1 witness: the empty-nodes and missing-type cases instantiated at
concrete parsed values, and a concrete failing run returning no
artifact. -/
theorem C1_artifact_acceptance_witness :
    c1EmptyNodes.getField "nodes" = some (Json.arr [])
      ∧ validateParsed c1EmptyNodes = GenOutcome.errNoNodes
      ∧ c1OneBad.getField "nodes" = some (Json.arr [c1BadNode])
      ∧ c1BadNode.getField "type" = none
      ∧ validateParsed c1OneBad = GenOutcome.errInvalidNodes 1
      ∧ (runGenerate "no json here").isAccepted = false
      ∧ (handleGenerateWorkflow "no json here" none).sentToPanel = none :=
  ⟨rfl, C1_artifact_acceptance.2.2.1 c1EmptyNodes rfl, rfl, rfl,
    C1_artifact_acceptance.2.2.2.1 c1OneBad c1BadNode rfl rfl, rfl,
    C1_artifact_acceptance.2.2.2.2 "no json here" none rfl⟩

/-- C2 (behaviour at the claim's scenario): the first rate-limited call
falls back to the secondary with `fallback=true`, `errorCode="RATE_LIMIT"`
and the primary suppressed, and the second call is answered by the
secondary with `silentFallback=true` and no notification — but the first
fallback carries `showNotification=false` (the provider is added to the
suppression set before the flag is computed), so the client shows no
notification on the first fallback either, contradicting the claim's last
clause. -/
theorem C2_rate_limit_fallback :
    c2FirstCall = PostOutcome.success c2FirstResponse ["openai"]
      ∧ c2FirstResponse.provider = "claude"
      ∧ c2FirstResponse.fallback = some true
      ∧ c2FirstResponse.errorCode = some "RATE_LIMIT"
      ∧ c2FirstResponse.showNotification = some false
      ∧ clientNotifies c2FirstResponse = false
      ∧ c2SecondCall = PostOutcome.success c2SecondResponse ["openai"]
      ∧ c2SecondResponse.provider = "claude"
      ∧ c2SecondResponse.silentFallback = some true
      ∧ clientNotifies c2SecondResponse = false := by
  refine ⟨by decide, rfl, rfl, rfl, rfl, by decide, by decide, rfl, rfl, by decide⟩

/-- C7: every failing generation run persists nothing (no workflow JSON
write and no status change), appends an error-flagged assistant message,
and re-shows the generate button. -/
theorem C7_failure_atomicity :
    ∀ (content : String) (wid : Option String),
      (handleGenerateWorkflow content wid).outcome = runGenerate content
      ∧ ((runGenerate content).isAccepted = false →
          (handleGenerateWorkflow content wid).persistedJson = none
          ∧ (handleGenerateWorkflow content wid).persistedStatus = none
          ∧ (handleGenerateWorkflow content wid).errorMessageAppended = true
          ∧ (handleGenerateWorkflow content wid).showGenerateButton = true
          ∧ (handleGenerateWorkflow content wid).workflowGenerated = false) := by
  intro content wid
  refine ⟨handle_outcome_eq content wid, ?_⟩
  intro h
  rw [handle_fail_eq content wid h]
  exact ⟨rfl, rfl, rfl, rfl, rfl⟩

/-- C7 witness: a concrete prose response, with an active workflow id,
persists nothing and re-arms the generate action. -/
theorem C7_failure_atomicity_witness :
    (runGenerate "Sorry, I am unable to do that.").isAccepted = false
      ∧ (handleGenerateWorkflow "Sorry, I am unable to do that." (some "w")).persistedJson = none
      ∧ (handleGenerateWorkflow "Sorry, I am unable to do that." (some "w")).persistedStatus = none
      ∧ (handleGenerateWorkflow "Sorry, I am unable to do that." (some "w")).errorMessageAppended = true
      ∧ (handleGenerateWorkflow "Sorry, I am unable to do that." (some "w")).showGenerateButton = true
      ∧ (handleGenerateWorkflow "Sorry, I am unable to do that." (some "w")).workflowGenerated = false :=
  ⟨rfl, (C7_failure_atomicity "Sorry, I am unable to do that." (some "w")).2 rfl⟩

/-- A mutation handled while the component is idle (no transition, no due
timer): the new log is stored, the previous timer is cancelled, and a save
is scheduled at `t + 3000` unless a guard skips it. -/
theorem applyMutation_ready (st : BuilderState) (t : Nat) (m : List ChatMsg) (w : String)
    (h1 : st.transitioning = false) (h2 : st.transitionEndsAt = none)
    (h3 : st.currentWorkflowId = some w)
    (hp : ∀ p, st.pending = some p → t < p.fireAt) :
    applyMutation st t m =
      if m.length ≤ 1 then { st with messages := m, pending := none }
      else if msgsHash m = st.lastSavedHash then { st with messages := m, pending := none }
      else
        { st with
            messages := m
            pending := some { fireAt := t + 3000, msgs := m, hash := msgsHash m, wid := w } } := by
  cases hpend : st.pending with
  | none =>
    simp [applyMutation, advanceTo, expireTransition, firePendingSave, h1, h2, h3, hpend]
  | some p =>
    have hnotdue : ¬ (p.fireAt ≤ t) := fun hle => absurd (hp p hpend) (by omega)
    simp [applyMutation, advanceTo, expireTransition, firePendingSave, h1, h2, h3, hpend, hnotdue]

/-- The facts about one idle-state mutation the burst argument needs. -/
theorem applyMutation_frame (st : BuilderState) (t : Nat) (m : List ChatMsg) (w : String)
    (h1 : st.transitioning = false) (h2 : st.transitionEndsAt = none)
    (h3 : st.currentWorkflowId = some w)
    (hp : ∀ p, st.pending = some p → t < p.fireAt) :
    (applyMutation st t m).transitioning = false
      ∧ (applyMutation st t m).transitionEndsAt = none
      ∧ (applyMutation st t m).currentWorkflowId = some w
      ∧ (applyMutation st t m).lastSavedHash = st.lastSavedHash
      ∧ (applyMutation st t m).writes = st.writes
      ∧ (applyMutation st t m).messages = m
      ∧ (∀ p, (applyMutation st t m).pending = some p → p.fireAt = t + 3000)
      ∧ (1 < m.length → msgsHash m ≠ st.lastSavedHash →
          (applyMutation st t m).pending
            = some { fireAt := t + 3000, msgs := m, hash := msgsHash m, wid := w })
      ∧ (msgsHash m = st.lastSavedHash → (applyMutation st t m).pending = none) := by
  rw [applyMutation_ready st t m w h1 h2 h3 hp]
  by_cases hlen : m.length ≤ 1
  · simp [hlen, h1, h2, h3]
  · by_cases hh : msgsHash m = st.lastSavedHash
    · simp [hlen, hh, h1, h2, h3]
    · simp [hlen, hh, h1, h2, h3]

/-- With no transition timer and no pending save, advancing time does
nothing. -/
theorem advanceTo_quiet (st : BuilderState) (tEnd : Nat)
    (h2 : st.transitionEndsAt = none) (hpend : st.pending = none) :
    advanceTo st tEnd = st := by
  simp [advanceTo, expireTransition, firePendingSave, h2, hpend]

/-- A due pending save whose session still matches fires exactly one
write, carrying the closed-over message log. -/
theorem advanceTo_fires (st : BuilderState) (tEnd : Nat) (p : PendingSave)
    (h1 : st.transitioning = false) (h2 : st.transitionEndsAt = none)
    (h3 : st.currentWorkflowId = some p.wid)
    (hpend : st.pending = some p) (hdue : p.fireAt ≤ tEnd)
    (hhash : msgsHash p.msgs = p.hash) :
    (advanceTo st tEnd).writes
      = st.writes ++ [{ time := p.fireAt, wid := p.wid, history := p.msgs }] := by
  simp [advanceTo, expireTransition, firePendingSave, fireAutoSave, h1, h2, h3, hpend, hdue, hhash]

/-- Three mutations each landing inside the previous debounce window
produce at most one write: none when the final hash matches the last save,
otherwise exactly one at 3 seconds after the last mutation, containing the
final log. -/
theorem burst_writes :
    ∀ (st : BuilderState) (w : String) (t1 t2 t3 tEnd : Nat) (m1 m2 m3 : List ChatMsg),
      st.transitioning = false → st.transitionEndsAt = none → st.pending = none →
      st.currentWorkflowId = some w →
      t2 < t1 + 3000 → t3 < t2 + 3000 → t3 + 3000 ≤ tEnd → 1 < m3.length →
      (runBuilder st [BuilderEvent.mutate t1 m1, BuilderEvent.mutate t2 m2,
          BuilderEvent.mutate t3 m3] tEnd).writes
        = st.writes ++ (if msgsHash m3 = st.lastSavedHash then []
            else [{ time := t3 + 3000, wid := w, history := m3 }]) := by
  intro st w t1 t2 t3 tEnd m1 m2 m3 h1 h2 h3p h4 hg1 hg2 hend hm3
  have hp0 : ∀ p, st.pending = some p → t1 < p.fireAt := by
    intro p hp
    rw [h3p] at hp
    cases hp
  obtain ⟨f1a, f1b, f1c, f1d, f1e, f1f, f1g, f1h, f1i⟩ :=
    applyMutation_frame st t1 m1 w h1 h2 h4 hp0
  have hp1 : ∀ p, (applyMutation st t1 m1).pending = some p → t2 < p.fireAt := by
    intro p hp
    rw [f1g p hp]
    omega
  obtain ⟨f2a, f2b, f2c, f2d, f2e, f2f, f2g, f2h, f2i⟩ :=
    applyMutation_frame (applyMutation st t1 m1) t2 m2 w f1a f1b f1c hp1
  have hp2 : ∀ p, (applyMutation (applyMutation st t1 m1) t2 m2).pending = some p →
      t3 < p.fireAt := by
    intro p hp
    rw [f2g p hp]
    omega
  obtain ⟨f3a, f3b, f3c, f3d, f3e, f3f, f3g, f3h, f3i⟩ :=
    applyMutation_frame (applyMutation (applyMutation st t1 m1) t2 m2) t3 m3 w f2a f2b f2c hp2
  have hrun : runBuilder st [BuilderEvent.mutate t1 m1, BuilderEvent.mutate t2 m2,
      BuilderEvent.mutate t3 m3] tEnd
      = advanceTo (applyMutation (applyMutation (applyMutation st t1 m1) t2 m2) t3 m3) tEnd := rfl
  rw [hrun]
  rw [f2d, f1d] at f3h f3i
  rw [f2e, f1e] at f3e
  by_cases hh : msgsHash m3 = st.lastSavedHash
  · rw [if_pos hh, List.append_nil]
    rw [advanceTo_quiet _ tEnd f3b (f3i hh), f3e]
  · rw [if_neg hh]
    rw [advanceTo_fires _ tEnd _ f3a f3b (by rw [f3c]) (f3h hm3 hh) (by simpa using hend) rfl,
      f3e]

/-- C8: a burst of mutations within the debounce window issues at most one
persisted write, containing the log as of 3 seconds after the last
mutation; the flush is skipped when the session changed or a transition is
in progress at fire time, a session switch cancels the pending save, and a
mutation whose content hash equals the last saved hash schedules no
write. -/
theorem C8_debounced_autosave :
    (∀ (st : BuilderState) (w : String) (t1 t2 t3 tEnd : Nat) (m1 m2 m3 : List ChatMsg),
      st.transitioning = false → st.transitionEndsAt = none → st.pending = none →
      st.currentWorkflowId = some w →
      t2 < t1 + 3000 → t3 < t2 + 3000 → t3 + 3000 ≤ tEnd → 1 < m3.length →
      (runBuilder st [BuilderEvent.mutate t1 m1, BuilderEvent.mutate t2 m2,
          BuilderEvent.mutate t3 m3] tEnd).writes
        = st.writes ++ (if msgsHash m3 = st.lastSavedHash then []
            else [{ time := t3 + 3000, wid := w, history := m3 }]))
      ∧ (∀ (st : BuilderState) (p : PendingSave),
          st.currentWorkflowId ≠ some p.wid ∨ st.transitioning = true →
          (fireAutoSave st p).writes = st.writes)
      ∧ (∀ (st : BuilderState) (t : Nat) (wid : Option String) (loaded : List ChatMsg),
          (applySwitch st t wid loaded).pending = none)
      ∧ (∀ (st : BuilderState) (t : Nat) (m : List ChatMsg) (w : String),
          st.transitioning = false → st.transitionEndsAt = none → st.pending = none →
          st.currentWorkflowId = some w → msgsHash m = st.lastSavedHash →
          (applyMutation st t m).pending = none ∧ (applyMutation st t m).writes = st.writes) := by
  refine ⟨burst_writes, ?_, ?_, ?_⟩
  · intro st p h
    unfold fireAutoSave
    rcases h with h | h
    · rw [if_pos (Or.inl h)]
    · rw [if_pos (Or.inr (by rw [h]))]
  · intro st t wid loaded
    rfl
  · intro st t m w h1 h2 h3 h4 hh
    obtain ⟨_, _, _, _, fe, _, _, _, fi⟩ :=
      applyMutation_frame st t m w h1 h2 h4
        (fun p hp => by rw [h3] at hp; cases hp)
    exact ⟨fi hh, fe⟩

/-- C8 witness: the concrete three-mutation burst at 100 ms, 500 ms and
900 ms with a quiet period after it. -/
theorem C8_debounced_autosave_witness :
    c8Start.transitioning = false ∧ c8Start.pending = none
      ∧ (runBuilder c8Start [BuilderEvent.mutate 100 c8M1, BuilderEvent.mutate 500 c8M2,
          BuilderEvent.mutate 900 c8M3] 10000).writes
        = c8Start.writes ++ (if msgsHash c8M3 = c8Start.lastSavedHash then []
            else [{ time := 900 + 3000, wid := "w", history := c8M3 }]) :=
  ⟨rfl, rfl,
    C8_debounced_autosave.1 c8Start "w" 100 500 900 10000 c8M1 c8M2 c8M3
      rfl rfl rfl rfl (by decide) (by decide) (by decide) (by decide)⟩

/-- C10 witness: a concrete discovery conversation reaching
`shouldGenerateWorkflow` on the second update, with the completeness
thresholds met. -/
theorem C10_single_update_single_step_witness :
    cDiscoveryState.phase = Phase.discovery
      ∧ shouldGenerateWorkflow
          (updateConversationState (updateConversationState cDiscoveryState "automate" "")
            "automate" "") = true
      ∧ 80 ≤ (updateConversationState cDiscoveryState "automate" "").completeness
      ∧ 90 ≤ (updateConversationState (updateConversationState cDiscoveryState "automate" "")
          "automate" "").completeness :=
  ⟨rfl, by decide,
    (C10_single_update_single_step cDiscoveryState "automate" "" "automate" "").2.2.2
      rfl (by decide)⟩

end FlowViber
